import Mathlib

/-!
# Verification of the Irish historical-sites GIS application

A shallow embedding of the spatial SQL functions and triggers of
`database_schema.sql`, the map-client state machine and journey calls of the
map script, and the service worker's fetch routing, together with proofs of
the behavioural properties stated in the specification.
-/

namespace IrishGeo

/-! ## Data model: rows of `historical_site` (the columns the spatial queries read) -/

/-- A row of the `historical_site` table, restricted to the columns that the
spatial utility functions `find_sites_near_point` and `find_sites_in_bbox`
read: id, English name, the point location (longitude/latitude, SRID 4326),
site type, approval workflow status and the soft-delete flag. -/
structure SiteRow where
  id : Nat
  name_en : String
  lng : ℚ
  lat : ℚ
  site_type : String
  approval_status : String
  is_deleted : Bool
deriving DecidableEq, Repr

/-- The common row filter of both spatial functions:
`hs.is_deleted = FALSE AND hs.approval_status = 'approved'`. -/
def siteVisible (s : SiteRow) : Bool :=
  !s.is_deleted && s.approval_status == "approved"

/-! ## `find_sites_near_point` (database_schema.sql, lines 351-380)

The SQL filters by `ST_DWithin(location::geography, point::geography,
radius_km * 1000)` (geodesic distance in meters at most the threshold) and
reports `ROUND((ST_Distance(location::geography, point::geography) / 1000)::numeric, 2)`.
The geodesic distance itself is PostGIS library code; the embedding is
parametric in a distance function `geoDistMeters` so that both the filter and
the reported column use the same geography-based distance, exactly as the SQL
does. -/

/-- `ROUND(x::numeric, 2)`: round to 2 decimal places (half away from zero on
positive values, as PostgreSQL's `ROUND` on `numeric`). -/
def round2 (q : ℚ) : ℚ :=
  ((round (q * 100) : ℤ) : ℚ) / 100

/-- One row of the `RETURNS TABLE (site_id, site_name, distance_km)` result. -/
structure NearbyRow where
  site_id : Nat
  site_name : String
  distance_km : ℚ
deriving DecidableEq, Repr

/-- Insert a row into a list sorted by `distance_km` (ascending). -/
def insertByDist (r : NearbyRow) : List NearbyRow → List NearbyRow
  | [] => [r]
  | x :: xs => if r.distance_km ≤ x.distance_km then r :: x :: xs else x :: insertByDist r xs

/-- `ORDER BY distance_km`: insertion sort on the reported distance. -/
def sortByDistance : List NearbyRow → List NearbyRow
  | [] => []
  | x :: xs => insertByDist x (sortByDistance xs)

/-- `find_sites_near_point(p_longitude, p_latitude, p_radius_km)`:
select visible sites within `p_radius_km * 1000` meters geodesic distance of
the query point, report the rounded distance in km, ordered by distance. -/
def find_sites_near_point (geoDistMeters : ℚ × ℚ → ℚ × ℚ → ℚ)
    (table : List SiteRow) (p_longitude p_latitude p_radius_km : ℚ) :
    List NearbyRow :=
  sortByDistance <|
    ((table.filter fun hs =>
        siteVisible hs &&
          decide (geoDistMeters (hs.lng, hs.lat) (p_longitude, p_latitude) ≤
            p_radius_km * 1000)).map
      fun hs =>
        { site_id := hs.id
          site_name := hs.name_en
          distance_km :=
            round2 (geoDistMeters (hs.lng, hs.lat) (p_longitude, p_latitude) / 1000) })

theorem mem_insertByDist {a r : NearbyRow} {l : List NearbyRow} :
    a ∈ insertByDist r l ↔ a = r ∨ a ∈ l := by
  induction l with
  | nil => simp [insertByDist]
  | cons x xs ih =>
      simp only [insertByDist]
      split
      · simp
      · simp [ih]
        tauto

theorem mem_sortByDistance {a : NearbyRow} {l : List NearbyRow} :
    a ∈ sortByDistance l ↔ a ∈ l := by
  induction l with
  | nil => simp [sortByDistance]
  | cons x xs ih => simp [sortByDistance, mem_insertByDist, ih]

/-! ## `find_sites_in_bbox` (database_schema.sql, lines 383-412)

The SQL filters by `ST_Intersects(location, ST_MakeEnvelope(min_lng, min_lat,
max_lng, max_lat, 4326))`.  For a point geometry and a rectangular envelope,
intersection holds exactly when the point's coordinates lie inside the closed
rectangle (envelope boundaries included). -/

/-- One row of the bbox result table
`(site_id, site_name, longitude, latitude, site_type)`. -/
structure BboxRow where
  site_id : Nat
  site_name : String
  longitude : ℚ
  latitude : ℚ
  site_type : String
deriving DecidableEq, Repr

/-- `ST_Intersects(point, ST_MakeEnvelope(min_lng, min_lat, max_lng, max_lat))`
for a point geometry: closed-rectangle membership, so boundary points match. -/
def pointIntersectsEnvelope (lng lat p_min_lng p_min_lat p_max_lng p_max_lat : ℚ) : Bool :=
  decide (p_min_lng ≤ lng) && decide (lng ≤ p_max_lng) &&
    decide (p_min_lat ≤ lat) && decide (lat ≤ p_max_lat)

/-- `find_sites_in_bbox(p_min_lng, p_min_lat, p_max_lng, p_max_lat)`:
select visible sites whose point intersects the envelope, projecting
id, name, the coordinates (`ST_X`/`ST_Y`) and the site type. -/
def find_sites_in_bbox (table : List SiteRow)
    (p_min_lng p_min_lat p_max_lng p_max_lat : ℚ) : List BboxRow :=
  (table.filter fun hs =>
      siteVisible hs &&
        pointIntersectsEnvelope hs.lng hs.lat p_min_lng p_min_lat p_max_lng p_max_lat).map
    fun hs =>
      { site_id := hs.id
        site_name := hs.name_en
        longitude := hs.lng
        latitude := hs.lat
        site_type := hs.site_type }

/-! ## Claim theorems for the spatial functions -/

/-- C1: For every point P, radius R (km), and site row returned by
`find_sites_near_point` with arguments P and R, the geography-based (geodesic)
distance from P to the site's location is at most R kilometers, and the
reported `distance_km` field equals that distance rounded to 2 decimals. -/
theorem C1_radius_query_within_radius
    (geoDistMeters : ℚ × ℚ → ℚ × ℚ → ℚ) (table : List SiteRow)
    (p_lng p_lat R : ℚ) (row : NearbyRow)
    (hmem : row ∈ find_sites_near_point geoDistMeters table p_lng p_lat R) :
    ∃ hs ∈ table, hs.id = row.site_id ∧
      geoDistMeters (hs.lng, hs.lat) (p_lng, p_lat) / 1000 ≤ R ∧
      row.distance_km = round2 (geoDistMeters (hs.lng, hs.lat) (p_lng, p_lat) / 1000) := by
  rw [find_sites_near_point] at hmem
  replace hmem := mem_sortByDistance.mp hmem
  obtain ⟨hs, hfil, rfl⟩ := List.mem_map.mp hmem
  obtain ⟨htab, hpred⟩ := List.mem_filter.mp hfil
  rw [Bool.and_eq_true, decide_eq_true_iff] at hpred
  refine ⟨hs, htab, rfl, ?_, rfl⟩
  have hd := hpred.2
  linarith

/-- Concrete instance data for evaluating the spatial queries. -/
def demoSite : SiteRow :=
  { id := 1
    name_en := "Newgrange"
    lng := -6.4755
    lat := 53.6947
    site_type := "passage_tomb"
    approval_status := "approved"
    is_deleted := false }

/-- A constant geodesic-distance oracle (500 meters everywhere) used to
evaluate `find_sites_near_point` on concrete data. -/
def demoNearDist : ℚ × ℚ → ℚ × ℚ → ℚ := fun _ _ => 500

/-- The result row `find_sites_near_point` produces for `demoSite` under
`demoNearDist` (500 m = 0.5 km, already 2-decimal). -/
def demoNearbyRow : NearbyRow :=
  { site_id := 1, site_name := "Newgrange", distance_km := 1/2 }

/-- Witness for C1 at a concrete table, query point and radius. -/
theorem C1_radius_query_within_radius_witness :
    ∃ hs ∈ [demoSite], hs.id = demoNearbyRow.site_id ∧
      demoNearDist (hs.lng, hs.lat) (-6, 53) / 1000 ≤ 1 ∧
      demoNearbyRow.distance_km =
        round2 (demoNearDist (hs.lng, hs.lat) (-6, 53) / 1000) :=
  C1_radius_query_within_radius demoNearDist [demoSite] (-6) 53 1 demoNearbyRow
    (by
      rw [show find_sites_near_point demoNearDist [demoSite] (-6) 53 1 = [demoNearbyRow] from ?_]
      · exact List.mem_singleton.mpr rfl
      · rw [find_sites_near_point]
        norm_num [siteVisible, demoSite, demoNearDist, demoNearbyRow, round2,
          sortByDistance, insertByDist, List.filter])

/-- C2: every row returned by `find_sites_in_bbox` has its point inside the
supplied envelope (closed rectangle, so boundary points match), and no
non-deleted approved site inside the envelope is omitted. -/
theorem C2_bbox_query_sound_and_complete
    (table : List SiteRow) (p_min_lng p_min_lat p_max_lng p_max_lat : ℚ) :
    (∀ row ∈ find_sites_in_bbox table p_min_lng p_min_lat p_max_lng p_max_lat,
        p_min_lng ≤ row.longitude ∧ row.longitude ≤ p_max_lng ∧
        p_min_lat ≤ row.latitude ∧ row.latitude ≤ p_max_lat) ∧
    (∀ hs ∈ table, hs.is_deleted = false → hs.approval_status = "approved" →
        p_min_lng ≤ hs.lng → hs.lng ≤ p_max_lng →
        p_min_lat ≤ hs.lat → hs.lat ≤ p_max_lat →
        ∃ row ∈ find_sites_in_bbox table p_min_lng p_min_lat p_max_lng p_max_lat,
          row.site_id = hs.id ∧ row.longitude = hs.lng ∧ row.latitude = hs.lat) := by
  constructor
  · intro row hrow
    rw [find_sites_in_bbox] at hrow
    obtain ⟨hs, hfil, rfl⟩ := List.mem_map.mp hrow
    have hpred := (List.mem_filter.mp hfil).2
    rw [Bool.and_eq_true] at hpred
    have henv := hpred.2
    rw [pointIntersectsEnvelope, Bool.and_eq_true, Bool.and_eq_true, Bool.and_eq_true] at henv
    rw [decide_eq_true_iff, decide_eq_true_iff, decide_eq_true_iff, decide_eq_true_iff] at henv
    exact ⟨henv.1.1.1, henv.1.1.2, henv.1.2, henv.2⟩
  · intro hs htab hdel happ h1 h2 h3 h4
    refine ⟨_, List.mem_map.mpr ⟨hs, List.mem_filter.mpr ⟨htab, ?_⟩, rfl⟩, rfl, rfl, rfl⟩
    rw [Bool.and_eq_true]
    constructor
    · rw [siteVisible, Bool.and_eq_true, hdel, happ]
      exact ⟨rfl, rfl⟩
    · rw [pointIntersectsEnvelope]
      simp only [Bool.and_eq_true, decide_eq_true_iff]
      exact ⟨⟨⟨h1, h2⟩, h3⟩, h4⟩

/-- The row `find_sites_in_bbox` produces for `demoSite`. -/
def demoBboxRow : BboxRow :=
  { site_id := 1
    site_name := "Newgrange"
    longitude := -6.4755
    latitude := 53.6947
    site_type := "passage_tomb" }

/-- Witness for C2 at a concrete table and envelope: the returned row for
`demoSite` lies inside the envelope (-7, 53, -6, 54). -/
theorem C2_bbox_query_sound_and_complete_witness :
    (-7 : ℚ) ≤ demoBboxRow.longitude ∧ demoBboxRow.longitude ≤ -6 ∧
      (53 : ℚ) ≤ demoBboxRow.latitude ∧ demoBboxRow.latitude ≤ 54 :=
  (C2_bbox_query_sound_and_complete [demoSite] (-7) 53 (-6) 54).1 demoBboxRow
    (by
      rw [show find_sites_in_bbox [demoSite] (-7) 53 (-6) 54 = [demoBboxRow] from ?_]
      · exact List.mem_singleton.mpr rfl
      · rw [find_sites_in_bbox]
        norm_num [siteVisible, pointIntersectsEnvelope, demoSite, demoBboxRow,
          List.filter])

/-! ## `site_image` and the `enforce_single_primary_image` trigger
(database_schema.sql, lines 322-336)

The BEFORE INSERT OR UPDATE trigger runs
`UPDATE site_image SET is_primary = FALSE
 WHERE site_id = NEW.site_id AND id != COALESCE(NEW.id, 0)`
whenever `NEW.is_primary = TRUE`, and then the row change itself is applied. -/

/-- A row of `site_image`, restricted to the columns the trigger reads. -/
structure ImageRow where
  id : Nat
  site_id : Nat
  is_primary : Bool
  is_deleted : Bool
deriving DecidableEq, Repr

/-- The body of the trigger function: when the incoming row is primary, reset
`is_primary` on every other image row of the same site. -/
def enforce_single_primary_image (new : ImageRow) (rows : List ImageRow) :
    List ImageRow :=
  if new.is_primary then
    rows.map fun r =>
      if r.site_id = new.site_id ∧ r.id ≠ new.id then { r with is_primary := false } else r
  else rows

/-- INSERT on `site_image`: the BEFORE trigger fires on the table, then the new
row is added. -/
def insertImage (new : ImageRow) (rows : List ImageRow) : List ImageRow :=
  enforce_single_primary_image new rows ++ [new]

/-- UPDATE on `site_image` producing row `new` (primary key unchanged): the
BEFORE trigger fires, then the row with `new.id` is replaced by `new`. -/
def updateImage (new : ImageRow) (rows : List ImageRow) : List ImageRow :=
  (enforce_single_primary_image new rows).map fun r => if r.id = new.id then new else r

/-- Table states reachable from the empty `site_image` table by sequences of
inserts (with a fresh serial id) and updates. -/
inductive ImageTableReach : List ImageRow → Prop
  | empty : ImageTableReach []
  | ins (new : ImageRow) (rows : List ImageRow) :
      ImageTableReach rows → new.id ∉ rows.map (·.id) →
      ImageTableReach (insertImage new rows)
  | upd (new : ImageRow) (rows : List ImageRow) :
      ImageTableReach rows → ImageTableReach (updateImage new rows)

/-- Number of rows of site `sid` flagged primary (deleted rows included). -/
def primaryCount (rows : List ImageRow) (sid : Nat) : Nat :=
  rows.countP fun r => r.site_id == sid && r.is_primary

/-- Number of non-deleted rows of site `sid` flagged primary. -/
def livePrimaryCount (rows : List ImageRow) (sid : Nat) : Nat :=
  rows.countP fun r => !r.is_deleted && (r.site_id == sid && r.is_primary)

theorem countP_map_le_of_imp {α : Type} (p q : α → Bool) (f : α → α) (l : List α)
    (h : ∀ a ∈ l, p (f a) = true → q a = true) :
    (l.map f).countP p ≤ l.countP q := by
  rw [List.countP_map]
  exact List.countP_mono_left h

theorem primaryCount_trigger_le (new : ImageRow) (rows : List ImageRow) (sid : Nat) :
    primaryCount (enforce_single_primary_image new rows) sid ≤ primaryCount rows sid := by
  simp only [primaryCount, enforce_single_primary_image]
  split
  · apply countP_map_le_of_imp
    intro a _ ha
    by_cases hc : a.site_id = new.site_id ∧ a.id ≠ new.id
    · rw [if_pos hc] at ha
      simp at ha
    · rwa [if_neg hc] at ha
  · exact le_refl _

theorem primaryCount_trigger_fresh (new : ImageRow) (rows : List ImageRow)
    (hp : new.is_primary = true) (hfresh : ∀ r ∈ rows, r.id ≠ new.id) :
    primaryCount (enforce_single_primary_image new rows) new.site_id = 0 := by
  simp only [primaryCount, enforce_single_primary_image, hp, if_true]
  rw [List.countP_eq_zero]
  intro a ha
  rw [List.mem_map] at ha
  obtain ⟨r, hr, rfl⟩ := ha
  by_cases hc : r.site_id = new.site_id ∧ r.id ≠ new.id
  · rw [if_pos hc]
    simp
  · rw [if_neg hc]
    push_neg at hc
    simp only [Bool.and_eq_true, beq_iff_eq, not_and]
    intro hsite _
    exact hfresh r hr (hc hsite)

theorem insertImage_primaryCount (new : ImageRow) (rows : List ImageRow)
    (hfresh : new.id ∉ rows.map (·.id))
    (hinv : ∀ sid, primaryCount rows sid ≤ 1) (sid : Nat) :
    primaryCount (insertImage new rows) sid ≤ 1 := by
  have hfresh' : ∀ r ∈ rows, r.id ≠ new.id := by
    intro r hr he
    exact hfresh (List.mem_map.mpr ⟨r, hr, he⟩)
  have hsplit : primaryCount (insertImage new rows) sid =
      primaryCount (enforce_single_primary_image new rows) sid +
        (if (new.site_id == sid && new.is_primary) = true then 1 else 0) := by
    simp [insertImage, primaryCount, List.countP_append, List.countP_cons]
  rw [hsplit]
  rcases hp : new.is_primary with _ | _
  · have htrig : enforce_single_primary_image new rows = rows := by
      simp [enforce_single_primary_image, hp]
    simp only [htrig, hp, Bool.and_false, if_neg (by simp : ¬(false = true))]
    simpa using hinv sid
  · by_cases hs : new.site_id = sid
    · subst hs
      rw [primaryCount_trigger_fresh new rows hp hfresh']
      simp [hp]
    · rw [Bool.and_true, if_neg (by simp [hs] : ¬((new.site_id == sid) = true)),
        Nat.add_zero]
      exact le_trans (primaryCount_trigger_le new rows sid) (hinv sid)

theorem countP_id_le_one (rows : List ImageRow)
    (hnodup : (rows.map (·.id)).Nodup) (i : Nat) :
    rows.countP (fun r => r.id == i) ≤ 1 := by
  induction rows with
  | nil => simp
  | cons r rs ih =>
      simp only [List.map_cons, List.nodup_cons] at hnodup
      rw [List.countP_cons]
      by_cases h : r.id = i
      · have hzero : rs.countP (fun r => r.id == i) = 0 := by
          rw [List.countP_eq_zero]
          intro a ha hai
          rw [beq_iff_eq] at hai
          exact hnodup.1 (List.mem_map.mpr ⟨a, ha, by rw [hai, h]⟩)
        simp [hzero, h]
      · simp only [beq_iff_eq, h, if_neg (by simp [h] : ¬((r.id == i) = true))]
        simpa using ih hnodup.2

theorem updateImage_primaryCount (new : ImageRow) (rows : List ImageRow)
    (hnodup : (rows.map (·.id)).Nodup)
    (hinv : ∀ sid, primaryCount rows sid ≤ 1) (sid : Nat) :
    primaryCount (updateImage new rows) sid ≤ 1 := by
  rcases hp : new.is_primary with _ | _
  · have htrig : enforce_single_primary_image new rows = rows := by
      simp [enforce_single_primary_image, hp]
    rw [updateImage, htrig]
    refine le_trans ?_ (hinv sid)
    simp only [primaryCount]
    apply countP_map_le_of_imp
    intro a _ ha
    by_cases hid : a.id = new.id
    · rw [if_pos hid] at ha
      simp [hp] at ha
    · rwa [if_neg hid] at ha
  · have hmap : updateImage new rows =
        rows.map fun a =>
          (fun r => if r.id = new.id then new else r)
            (if a.site_id = new.site_id ∧ a.id ≠ new.id then { a with is_primary := false } else a) := by
      simp [updateImage, enforce_single_primary_image, hp, List.map_map, Function.comp]
    by_cases hs : new.site_id = sid
    · subst hs
      refine le_trans ?_ (countP_id_le_one rows hnodup new.id)
      rw [hmap]
      simp only [primaryCount]
      apply countP_map_le_of_imp
      intro a _ ha
      by_cases hid : a.id = new.id
      · simp [hid]
      · exfalso
        by_cases hc : a.site_id = new.site_id ∧ a.id ≠ new.id
        · rw [if_pos hc, if_neg (by simpa using hid)] at ha
          simp at ha
        · rw [if_neg hc, if_neg hid] at ha
          push_neg at hc
          rw [Bool.and_eq_true, beq_iff_eq] at ha
          exact hid (hc ha.1)
    · refine le_trans ?_ (hinv sid)
      rw [hmap]
      simp only [primaryCount]
      apply countP_map_le_of_imp
      intro a _ ha
      by_cases hid : a.id = new.id
      · rw [if_neg (by simp [hid] : ¬(a.site_id = new.site_id ∧ a.id ≠ new.id)),
          if_pos hid] at ha
        rw [Bool.and_eq_true, beq_iff_eq] at ha
        exact absurd ha.1 hs
      · by_cases hc : a.site_id = new.site_id ∧ a.id ≠ new.id
        · rw [if_pos hc, if_neg (by simpa using hid)] at ha
          simp at ha
        · rwa [if_neg hc, if_neg hid] at ha

theorem ids_trigger (new : ImageRow) (rows : List ImageRow) :
    (enforce_single_primary_image new rows).map (·.id) = rows.map (·.id) := by
  simp only [enforce_single_primary_image]
  split
  · rw [List.map_map]
    apply List.map_congr_left
    intro a _
    by_cases hc : a.site_id = new.site_id ∧ a.id ≠ new.id <;> simp [hc]
  · rfl

theorem ids_updateImage (new : ImageRow) (rows : List ImageRow) :
    (updateImage new rows).map (·.id) = rows.map (·.id) := by
  rw [updateImage, List.map_map]
  have : ((fun r : ImageRow => r.id) ∘ fun r => if r.id = new.id then new else r) =
      fun r : ImageRow => r.id := by
    funext r
    by_cases h : r.id = new.id <;> simp [Function.comp, h]
  rw [this, ids_trigger]

theorem reach_invariant {rows : List ImageRow} (h : ImageTableReach rows) :
    (rows.map (·.id)).Nodup ∧ ∀ sid, primaryCount rows sid ≤ 1 := by
  induction h with
  | empty => simp [primaryCount]
  | ins new rs _ hfresh ih =>
      refine ⟨?_, insertImage_primaryCount new rs hfresh ih.2⟩
      rw [insertImage, List.map_append, ids_trigger]
      rw [List.nodup_append]
      refine ⟨ih.1, List.nodup_singleton _, ?_⟩
      intro a ha hb
      simp only [List.map_cons, List.map_nil, List.mem_singleton] at hb
      subst hb
      exact hfresh ha
  | upd new rs _ ih =>
      exact ⟨by rw [ids_updateImage]; exact ih.1,
        updateImage_primaryCount new rs ih.1 ih.2⟩

/-- C3: for every site and every sequence of inserts and updates on
`site_image` rows starting from the empty table, at most one non-deleted image
row per site has `is_primary = TRUE`: the `enforce_single_primary_image`
trigger resets `is_primary` on every other image row of the same site before
the change lands. -/
theorem C3_at_most_one_primary_image {rows : List ImageRow}
    (h : ImageTableReach rows) (sid : Nat) :
    livePrimaryCount rows sid ≤ 1 := by
  refine le_trans ?_ ((reach_invariant h).2 sid)
  simp only [livePrimaryCount, primaryCount]
  apply List.countP_mono_left
  intro r _ hr
  rw [Bool.and_eq_true] at hr
  exact hr.2

/-- First image inserted in the witness scenario (primary). -/
def imgA : ImageRow := { id := 1, site_id := 1, is_primary := true, is_deleted := false }

/-- Second image of the same site, also inserted as primary. -/
def imgB : ImageRow := { id := 2, site_id := 1, is_primary := true, is_deleted := false }

/-- Witness for C3: after inserting two primary images for site 1 in sequence,
the non-deleted primary count of site 1 is still at most one. -/
theorem C3_at_most_one_primary_image_witness :
    livePrimaryCount (insertImage imgB (insertImage imgA [])) 1 ≤ 1 :=
  C3_at_most_one_primary_image
    (ImageTableReach.ins imgB (insertImage imgA [])
      (ImageTableReach.ins imgA [] ImageTableReach.empty (by decide))
      (by decide)) 1

/-! ## `validate_ireland_bounds` (database_schema.sql, lines 302-319)

The trigger function raises an exception when the geometry's envelope leaves
the box [-11, -5] × [51, 56].  In the schema it is installed BEFORE INSERT OR
UPDATE on `province` (`validate_province_bounds`, line 314) and on `county`
(`validate_county_bounds`, line 318) only; no bounds trigger is created on
`historical_site`, and none of the `historical_site` CHECK constraints
(lines 145-149) mentions the `location` column. -/

/-- The envelope of a stored geometry (`ST_XMin`/`ST_XMax`/`ST_YMin`/`ST_YMax`
of the value).  For a point all four coincide with the point's coordinates. -/
structure GeomEnvelope where
  xmin : ℚ
  xmax : ℚ
  ymin : ℚ
  ymax : ℚ
deriving DecidableEq, Repr

/-- The trigger function body: `true` when the row is accepted, `false` when
the `RAISE EXCEPTION 'Geometry extends beyond Ireland boundaries'` fires. -/
def validate_ireland_bounds (g : GeomEnvelope) : Bool :=
  !(decide (g.xmin < -11) || decide (g.xmax > -5) ||
    decide (g.ymin < 51) || decide (g.ymax > 56))

/-- The columns of an INSERT on `historical_site` that its CHECK constraints
read (`site_significance_range`, `site_dates_valid`, `site_elevation_range`,
`site_approval_status_valid`, `site_data_quality_range`), plus the point
location. -/
structure SiteInsertRow where
  location : GeomEnvelope
  significance_level : Int
  elevation_meters : Option ℚ
  date_established : Option Int
  date_abandoned : Option Int
  approval_status : String
  data_quality : Int
deriving DecidableEq, Repr

/-- The conjunction of the `historical_site` CHECK constraints: this is all
the validation an INSERT (or UPDATE) on `historical_site` receives — the
schema installs no bounds trigger on this table. -/
def historical_site_checks (r : SiteInsertRow) : Bool :=
  decide (1 ≤ r.significance_level ∧ r.significance_level ≤ 4) &&
    (match r.date_abandoned, r.date_established with
     | some ab, some est => decide (est ≤ ab)
     | _, _ => true) &&
    (match r.elevation_meters with
     | some e => decide (-100 ≤ e ∧ e ≤ 2000)
     | none => true) &&
    (r.approval_status == "pending" || r.approval_status == "approved" ||
      r.approval_status == "rejected") &&
    decide (1 ≤ r.data_quality ∧ r.data_quality ≤ 5)

/-- Reachable states of a region table (`province` or `county`) geometry
column: each insert appends a geometry accepted by the bounds trigger, each
update replaces a row with a geometry accepted by the bounds trigger. -/
inductive RegionTableReach : List GeomEnvelope → Prop
  | empty : RegionTableReach []
  | ins (g : GeomEnvelope) (t : List GeomEnvelope) :
      RegionTableReach t → validate_ireland_bounds g = true →
      RegionTableReach (t ++ [g])
  | upd (i : Nat) (g : GeomEnvelope) (t : List GeomEnvelope) :
      RegionTableReach t → validate_ireland_bounds g = true →
      RegionTableReach (t.set i g)

/-- A `historical_site` row located at (0, 0) — far outside Ireland — that
satisfies every CHECK constraint of the table. -/
def atlantisSite : SiteInsertRow :=
  { location := { xmin := 0, xmax := 0, ymin := 0, ymax := 0 }
    significance_level := 2
    elevation_meters := some 10
    date_established := none
    date_abandoned := none
    approval_status := "pending"
    data_quality := 3 }

/-- Counterexample to C4 as stated: an INSERT on `historical_site` whose
location lies outside the Ireland envelope passes every check the schema
applies to that table (the `validate_ireland_bounds` trigger is attached only
to `province` and `county`), so the claimed rejection does not happen. -/
theorem C4_counterexample_site_outside_envelope :
    historical_site_checks atlantisSite = true ∧
      validate_ireland_bounds atlantisSite.location = false := by
  constructor
  · norm_num [historical_site_checks, atlantisSite]
  · norm_num [validate_ireland_bounds, atlantisSite]

/-- C4 (amended): the bounds validation holds for the tables that carry the
trigger — every geometry in a reachable `province` or `county` table state
lies within the Ireland envelope (longitude between -11 and -5, latitude
between 51 and 56); `historical_site` locations are not so constrained. -/
theorem C4_region_geometry_in_bounds (t : List GeomEnvelope)
    (h : RegionTableReach t) :
    ∀ g ∈ t, -11 ≤ g.xmin ∧ g.xmax ≤ -5 ∧ 51 ≤ g.ymin ∧ g.ymax ≤ 56 := by
  induction h with
  | empty => simp
  | ins g t _ hacc ih =>
      intro a ha
      rw [List.mem_append] at ha
      rcases ha with ha | ha
      · exact ih a ha
      · rw [List.mem_singleton] at ha
        subst ha
        rw [validate_ireland_bounds] at hacc
        simp only [Bool.not_eq_true', Bool.or_eq_false_iff,
          decide_eq_false_iff_not, not_lt] at hacc
        exact ⟨hacc.1.1.1, hacc.1.1.2, hacc.1.2, hacc.2⟩
  | upd i g t _ hacc ih =>
      intro a ha
      rcases List.mem_or_eq_of_mem_set ha with ha | ha
      · exact ih a ha
      · subst ha
        rw [validate_ireland_bounds] at hacc
        simp only [Bool.not_eq_true', Bool.or_eq_false_iff,
          decide_eq_false_iff_not, not_lt] at hacc
        exact ⟨hacc.1.1.1, hacc.1.1.2, hacc.1.2, hacc.2⟩

/-- An in-bounds region geometry used to instantiate the amended C4. -/
def leinsterEnvelope : GeomEnvelope := { xmin := -8, xmax := -6, ymin := 52, ymax := 54 }

/-- Witness for the amended C4 at a concrete reachable region table. -/
theorem C4_region_geometry_in_bounds_witness :
    -11 ≤ leinsterEnvelope.xmin ∧ leinsterEnvelope.xmax ≤ -5 ∧
      51 ≤ leinsterEnvelope.ymin ∧ leinsterEnvelope.ymax ≤ 56 :=
  C4_region_geometry_in_bounds ([] ++ [leinsterEnvelope])
    (RegionTableReach.ins leinsterEnvelope [] RegionTableReach.empty
      (by norm_num [validate_ireland_bounds, leinsterEnvelope]))
    leinsterEnvelope (by simp)

/-! ## Map client interaction tool state (map script)

The five boolean flags (`coordsDisplayEnabled`, `measurementActive`,
`elevationActive`, `addPointActive`, `nearbySearchActive`) are toggled by
`toggleCoordinatesDisplay` (line 930), `toggleMeasurementTool` (line 1039),
`toggleAddPointMode` (line 1134), `toggleElevationTool` (line 1220),
`handleNearbySearch` (line 1408); `deactivateOtherTools` (line 1498) clears
every flag other than the current tool's; the Escape key handler
(`setupEventListeners`, line 1545) calls `deactivateOtherTools('none')`;
`finishElevationProfile` (line 1316) and `performNearbySearch` (line 1435)
clear their own flag when they run. -/

/-- The five tool flags of the map client. -/
structure ToolState where
  coordsDisplayEnabled : Bool
  measurementActive : Bool
  elevationActive : Bool
  addPointActive : Bool
  nearbySearchActive : Bool
deriving DecidableEq, Repr

/-- The `currentTool` string argument of `deactivateOtherTools`. -/
inductive Tool
  | coords
  | measure
  | addPoint
  | elevation
  | nearby
  | noTool
deriving DecidableEq, Repr

/-- `toggleCoordinatesDisplay`: flips the flag; it does NOT call
`deactivateOtherTools`. -/
def toggleCoordinatesDisplay (s : ToolState) : ToolState :=
  { s with coordsDisplayEnabled := !s.coordsDisplayEnabled }

/-- `deactivateOtherTools(currentTool)`: clears each flag other than the
current tool's; the coordinate display is turned off by calling its toggle
(the flag is known true on that branch). -/
def deactivateOtherTools (cur : Tool) (s : ToolState) : ToolState :=
  let s1 := if cur ≠ Tool.coords ∧ s.coordsDisplayEnabled then toggleCoordinatesDisplay s else s
  let s2 := if cur ≠ Tool.measure ∧ s1.measurementActive then
    { s1 with measurementActive := false } else s1
  let s3 := if cur ≠ Tool.addPoint ∧ s2.addPointActive then
    { s2 with addPointActive := false } else s2
  let s4 := if cur ≠ Tool.elevation ∧ s3.elevationActive then
    { s3 with elevationActive := false } else s3
  if cur ≠ Tool.nearby ∧ s4.nearbySearchActive then
    { s4 with nearbySearchActive := false } else s4

/-- `toggleMeasurementTool`: flips the flag, and when the result is active,
deactivates the other tools. -/
def toggleMeasurementTool (s : ToolState) : ToolState :=
  let s := { s with measurementActive := !s.measurementActive }
  if s.measurementActive then deactivateOtherTools Tool.measure s else s

/-- `toggleAddPointMode`. -/
def toggleAddPointMode (s : ToolState) : ToolState :=
  let s := { s with addPointActive := !s.addPointActive }
  if s.addPointActive then deactivateOtherTools Tool.addPoint s else s

/-- `toggleElevationTool`. -/
def toggleElevationTool (s : ToolState) : ToolState :=
  let s := { s with elevationActive := !s.elevationActive }
  if s.elevationActive then deactivateOtherTools Tool.elevation s else s

/-- `handleNearbySearch`. -/
def handleNearbySearch (s : ToolState) : ToolState :=
  let s := { s with nearbySearchActive := !s.nearbySearchActive }
  if s.nearbySearchActive then deactivateOtherTools Tool.nearby s else s

/-- The Escape key handler: `deactivateOtherTools('none')`. -/
def escapeKey (s : ToolState) : ToolState :=
  deactivateOtherTools Tool.noTool s

/-- The `finally` block of `finishElevationProfile`: clears the elevation flag. -/
def finishElevationProfile (s : ToolState) : ToolState :=
  { s with elevationActive := false }

/-- `performNearbySearch`: clears the nearby flag when the search runs. -/
def performNearbySearch (s : ToolState) : ToolState :=
  { s with nearbySearchActive := false }

/-- The events that change the tool flags. -/
inductive MapEvent
  | toggleCoords
  | toggleMeasure
  | toggleAddPoint
  | toggleElevation
  | toggleNearby
  | escape
  | finishElevation
  | runNearbySearch
deriving DecidableEq, Repr

/-- The transition function of the map client's tool state. -/
def mapStep : MapEvent → ToolState → ToolState
  | MapEvent.toggleCoords, s => toggleCoordinatesDisplay s
  | MapEvent.toggleMeasure, s => toggleMeasurementTool s
  | MapEvent.toggleAddPoint, s => toggleAddPointMode s
  | MapEvent.toggleElevation, s => toggleElevationTool s
  | MapEvent.toggleNearby, s => handleNearbySearch s
  | MapEvent.escape, s => escapeKey s
  | MapEvent.finishElevation, s => finishElevationProfile s
  | MapEvent.runNearbySearch, s => performNearbySearch s

/-- The initial state: every flag starts `false` (map script, lines 136-141). -/
def initToolState : ToolState :=
  { coordsDisplayEnabled := false, measurementActive := false,
    elevationActive := false, addPointActive := false, nearbySearchActive := false }

/-- Number of the five flags that are set. -/
def allFlagCount (s : ToolState) : Nat :=
  (cond s.coordsDisplayEnabled 1 0) + (cond s.measurementActive 1 0) +
    (cond s.elevationActive 1 0) + (cond s.addPointActive 1 0) +
    (cond s.nearbySearchActive 1 0)

/-- Number of the four interaction-tool flags (coordinate display excluded)
that are set. -/
def toolFlagCount (s : ToolState) : Nat :=
  (cond s.measurementActive 1 0) + (cond s.elevationActive 1 0) +
    (cond s.addPointActive 1 0) + (cond s.nearbySearchActive 1 0)

/-- Counterexample to C5 as stated: starting from the initial state, toggling
the measurement tool and then the coordinate display leaves TWO of the five
flags true (`toggleCoordinatesDisplay` never deactivates the other tools), so
the five flags are not mutually exclusive after an arbitrary tool-toggle
event. -/
theorem C5_counterexample_coords_not_exclusive :
    allFlagCount (mapStep MapEvent.toggleCoords
      (mapStep MapEvent.toggleMeasure initToolState)) = 2 := by
  decide

/-- C5 (amended): the four interaction-tool flags (measurement, elevation,
add-point, nearby-search) are mutually exclusive — after any event at most one
of them is true, because activating one deactivates the others (and also turns
the coordinate display off); toggling the coordinate display, however, does
not deactivate an active tool, so `coordsDisplayEnabled` can hold alongside
one tool flag; pressing Escape deactivates all five flags. -/
theorem C5_tool_flags_mutually_exclusive (s : ToolState) (e : MapEvent)
    (h : toolFlagCount s ≤ 1) :
    toolFlagCount (mapStep e s) ≤ 1 ∧ mapStep MapEvent.escape s = initToolState := by
  revert h
  rcases s with ⟨a, b, c, d, f⟩
  cases e <;> cases a <;> cases b <;> cases c <;> cases d <;> cases f <;> decide

/-- Witness for the amended C5 at the initial state and a concrete event. -/
theorem C5_tool_flags_mutually_exclusive_witness :
    toolFlagCount (mapStep MapEvent.toggleMeasure initToolState) ≤ 1 ∧
      mapStep MapEvent.escape initToolState = initToolState :=
  C5_tool_flags_mutually_exclusive initToolState MapEvent.toggleMeasure (by decide)

/-! ## String helpers for the client code

`String.prototype.includes` and path prefix tests, defined on the underlying
character lists so that concrete instances evaluate. -/

/-- Whether `s` starts with `pat` (character lists). -/
def startsWithChars : List Char → List Char → Bool
  | [], _ => true
  | _ :: _, [] => false
  | p :: ps, c :: cs => p == c && startsWithChars ps cs

/-- Whether `pat` occurs contiguously inside `s` (character lists):
JS `s.includes(pat)`. -/
def containsChars (pat : List Char) : List Char → Bool
  | [] => pat.isEmpty
  | c :: cs => startsWithChars pat (c :: cs) || containsChars pat cs

/-- JS `s.includes(pat)`. -/
def strIncludes (s pat : String) : Bool :=
  containsChars pat.data s.data

/-- JS `s.startsWith(pat)`. -/
def strStarts (s pat : String) : Bool :=
  startsWithChars pat.data s.data

/-! ## Journey (bucket list) client calls (map script, lines 1764-1926) -/

/-- An entry of the viewer's bucket list as the client sees it: the entry's
own id, the referenced site id, and the status string. -/
structure JourneyEntry where
  id : Nat
  siteId : Nat
  status : String
deriving DecidableEq, Repr

/-- Modelled from the spec: the bucket-list POST endpoint (the server code is
not part of the repository snapshot; only the client calls it).  "Adding when
already present must fail with a distinguishable 'already exists' condition
rather than creating a duplicate": when the site is already in the viewer's
list the server rejects the request with an error message containing
"already in bucket list" (the phrase the client tests for); otherwise it
appends a new entry. -/
def serverBucketListAdd (entries : List JourneyEntry) (freshId siteId : Nat)
    (status : String) : Except String (List JourneyEntry) :=
  if entries.any fun e => e.siteId == siteId then
    Except.error "Site already in bucket list"
  else
    Except.ok (entries ++ [{ id := freshId, siteId := siteId, status := status }])

/-- `addToJourney` (map script, lines 1818-1872): POST the site id; when the
response is not ok and the error message contains "already in bucket list",
toast "Site already in your journey"; on success toast the addition.  Returns
the resulting list state together with the toast message shown. -/
def addToJourney (entries : List JourneyEntry) (freshId siteId : Nat)
    (status : String) : List JourneyEntry × String :=
  match serverBucketListAdd entries freshId siteId status with
  | Except.ok entries' =>
      (entries',
        if status == "visited" then "Added to Visited!" else "Added to Wishlist!")
  | Except.error e =>
      if strIncludes e "already in bucket list" then
        (entries, "Site already in your journey")
      else
        (entries, "Failed to add to journey")

/-- C6: adding a site already present in the viewer's journey fails with the
distinguishable duplicate condition — the client reports "Site already in your
journey" — and no second entry for that site is created. -/
theorem C6_duplicate_add_detected (entries : List JourneyEntry)
    (freshId siteId : Nat) (status : String)
    (h : ∃ e ∈ entries, e.siteId = siteId) :
    addToJourney entries freshId siteId status =
      (entries, "Site already in your journey") := by
  have hany : (entries.any fun e => e.siteId == siteId) = true := by
    rw [List.any_eq_true]
    obtain ⟨e, he, heq⟩ := h
    exact ⟨e, he, by rw [beq_iff_eq]; exact heq⟩
  have hstr : strIncludes "Site already in bucket list" "already in bucket list" = true := by
    decide
  simp [addToJourney, serverBucketListAdd, hany, hstr]

/-- The bucket-list entry used in the witness scenarios. -/
def demoEntry : JourneyEntry := { id := 41, siteId := 7, status := "wishlist" }

/-- Witness for C6: re-adding site 7 when it is already in the list leaves the
list unchanged and reports the duplicate toast. -/
theorem C6_duplicate_add_detected_witness :
    addToJourney [demoEntry] 99 7 "wishlist" =
      ([demoEntry], "Site already in your journey") :=
  C6_duplicate_add_detected [demoEntry] 99 7 "wishlist"
    ⟨demoEntry, by decide, by decide⟩

/-- `checkJourneyStatus` (map script, lines 1764-1778): fetch the viewer's
bucket list and find the entry whose site id matches. -/
def checkJourneyStatus (entries : List JourneyEntry) (siteId : Nat) :
    Option JourneyEntry :=
  entries.find? fun i => i.siteId == siteId

/-- The observable outcome of `removeFromJourney`: the id sent in a DELETE
request (if any), the toast message, and the resulting list state. -/
structure RemoveOutcome where
  deleteRequestId : Option Nat
  message : String
  entries : List JourneyEntry
deriving DecidableEq, Repr

/-- `removeFromJourney` (map script, lines 1877-1926): first resolve the entry
via `checkJourneyStatus`; when no entry exists, toast "Site not found in
journey" and return without issuing any DELETE; otherwise DELETE
`/api/v1/bucket-list/{id}/` (removing the entry with that id) and toast the
removal. -/
def removeFromJourney (entries : List JourneyEntry) (siteId : Nat) :
    RemoveOutcome :=
  match checkJourneyStatus entries siteId with
  | none =>
      { deleteRequestId := none
        message := "Site not found in journey"
        entries := entries }
  | some item =>
      { deleteRequestId := some item.id
        message := "Removed from journey"
        entries := entries.filter fun e => e.id != item.id }

/-- C7: the DELETE request is issued only when the bucket-list lookup resolves
an existing entry; when the lookup finds nothing the operation reports "not
found", issues no DELETE, and leaves the journey unchanged. -/
theorem C7_remove_requires_lookup (entries : List JourneyEntry) (siteId : Nat) :
    (checkJourneyStatus entries siteId = none →
      removeFromJourney entries siteId =
        { deleteRequestId := none
          message := "Site not found in journey"
          entries := entries }) ∧
    (∀ item, checkJourneyStatus entries siteId = some item →
      (removeFromJourney entries siteId).deleteRequestId = some item.id) := by
  constructor
  · intro h
    rw [removeFromJourney, h]
  · intro item h
    rw [removeFromJourney, h]

/-- Witness for C7: removing site 8 from a list that only holds site 7 issues
no DELETE and changes nothing. -/
theorem C7_remove_requires_lookup_witness :
    removeFromJourney [demoEntry] 8 =
      { deleteRequestId := none
        message := "Site not found in journey"
        entries := [demoEntry] } :=
  (C7_remove_requires_lookup [demoEntry] 8).1 (by decide)

/-! ## Pagination (server constants modelled from the spec; client request from
`loadSites`, map script lines 390-458) -/

/-- The client's fixed request in `loadSites` (map script, line 397):
`params.append('page_size', '2000')`. -/
def loadSitesRequestedPageSize : Nat := 2000

/-- Modelled from the spec: the shared default page size of the server
pagination class (`StandardResultsPagination` in `apps/api/views.py`, absent
from the repository snapshot).  "Default and maximum page sizes are
configuration constants, not per-endpoint hardcoded values"; the memory-fix
log records the default reduced to 100. -/
def defaultPageSize : Nat := 100

/-- Modelled from the spec: the shared maximum page size of the server
pagination class, the single ceiling every list endpoint goes through; the
memory-fix log records it reduced to 200. -/
def maxPageSize : Nat := 200

/-- Modelled from the spec: the effective page size of a request — an explicit
`page_size` parameter is capped at the maximum, a missing one gets the
default. -/
def effectivePageSize (requested : Option Nat) : Nat :=
  match requested with
  | none => defaultPageSize
  | some n => min n maxPageSize

/-- Modelled from the spec: the pagination stage every list-shaped response
goes through — at most `effectivePageSize requested` items are returned. -/
def paginate {α : Type} (requested : Option Nat) (items : List α) : List α :=
  items.take (effectivePageSize requested)

/-- C8: for every paginated list endpoint and every requested page size —
including the client's `page_size=2000` request in `loadSites` — a single
response never holds more than the one configured maximum page size. -/
theorem C8_page_size_capped {α : Type} (requested : Option Nat)
    (items : List α) :
    (paginate requested items).length ≤ maxPageSize ∧
      (paginate (some loadSitesRequestedPageSize) items).length ≤ maxPageSize := by
  have hcap : ∀ r : Option Nat, effectivePageSize r ≤ maxPageSize := by
    intro r
    cases r with
    | none => decide
    | some n => exact min_le_right _ _
  constructor <;>
    · rw [paginate, List.length_take]
      exact le_trans (min_le_left _ _) (hcap _)

/-! ## Service worker fetch routing (src/static/js/sw.js) -/

/-- The parts of a fetch-event request that the service worker inspects:
HTTP method, URL protocol/hostname/path, the request mode, and the Accept
header. -/
structure SwRequest where
  method : String
  urlProtocol : String
  urlHostname : String
  urlPath : String
  mode : String
  acceptHeader : String
deriving DecidableEq, Repr

/-- `isApiRequest` (sw.js, line 147): `url.pathname.startsWith('/api/')`. -/
def isApiRequest (r : SwRequest) : Bool :=
  strStarts r.urlPath "/api/"

/-- `isMapTile` (sw.js, line 151). -/
def isMapTile (r : SwRequest) : Bool :=
  strIncludes r.urlHostname "tile.openstreetmap.org" ||
    strIncludes r.urlHostname "tile.opentopomap.org" ||
    strIncludes r.urlHostname "arcgisonline.com" ||
    strIncludes r.urlPath "/tile/"

/-- The static file extensions of the `isStaticAsset` regex (sw.js, line 160). -/
def staticExtensions : List String :=
  [".css", ".js", ".svg", ".png", ".jpg", ".jpeg", ".gif", ".webp",
    ".woff", ".woff2", ".ttf", ".eot"]

/-- Whether `s` ends with `pat` (character lists). -/
def endsWithChars (pat s : List Char) : Bool :=
  startsWithChars pat.reverse s.reverse

/-- `isStaticAsset` (sw.js, line 158): a `/static/` path or a path matching the
case-insensitive extension regex. -/
def isStaticAsset (r : SwRequest) : Bool :=
  strStarts r.urlPath "/static/" ||
    staticExtensions.any fun ext => endsWithChars ext.data r.urlPath.toLower.data

/-- `isCdnAsset` (sw.js, line 163). -/
def isCdnAsset (r : SwRequest) : Bool :=
  strIncludes r.urlHostname "unpkg.com" ||
    strIncludes r.urlHostname "cdnjs.cloudflare.com" ||
    strIncludes r.urlHostname "cdn.jsdelivr.net"

/-- `isNavigationRequest` (sw.js, line 169). -/
def isNavigationRequest (r : SwRequest) : Bool :=
  r.mode == "navigate" || strIncludes r.acceptHeader "text/html"

/-- The caches the service worker opens. -/
inductive SwCache
  | staticCache
  | dynamicCache
  | apiCache
  | tileCache
deriving DecidableEq, Repr

/-- The strategy a fetch event is routed to. -/
inductive FetchRoute
  | networkFirst (c : SwCache)
  | cacheFirst (c : SwCache)
  | staleWhileRevalidate (c : SwCache)
deriving DecidableEq, Repr

/-- The fetch event listener (sw.js, lines 113-141): non-GET requests and
non-http(s) requests are not intercepted at all (`return` before any
`respondWith`); the rest are routed by request class. -/
def handleFetchEvent (r : SwRequest) : Option FetchRoute :=
  if r.method != "GET" then none
  else if !strStarts r.urlProtocol "http" then none
  else if isApiRequest r then some (FetchRoute.networkFirst SwCache.apiCache)
  else if isMapTile r then some (FetchRoute.cacheFirst SwCache.tileCache)
  else if isStaticAsset r then some (FetchRoute.cacheFirst SwCache.staticCache)
  else if isCdnAsset r then some (FetchRoute.cacheFirst SwCache.dynamicCache)
  else if isNavigationRequest r then
    some (FetchRoute.staleWhileRevalidate SwCache.dynamicCache)
  else some (FetchRoute.networkFirst SwCache.dynamicCache)

/-- A response as the worker produces it: status code, content type, body. -/
structure SwResponse where
  status : Nat
  contentType : String
  body : String
deriving DecidableEq, Repr

/-- The offline JSON response built for API requests when both network and
cache fail (sw.js, lines 234-244). -/
def offlineApiResponse : SwResponse :=
  { status := 503
    contentType := "application/json"
    body := "\x7b\"error\":\"offline\",\"message\":\"You are currently offline. This data was not cached.\"\x7d" }

/-- `createOfflineResponse` (sw.js, lines 295-339), abbreviated to the fields
the claims read: navigation requests get the offline HTML page, anything else
an empty 503. -/
def createOfflineResponse (r : SwRequest) : SwResponse :=
  if isNavigationRequest r then
    { status := 503, contentType := "text/html", body := "offline page" }
  else
    { status := 503, contentType := "", body := "" }

/-- `networkFirstStrategy` (sw.js, lines 213-249), with the network outcome
and the cache lookup as inputs: a network response is returned when the fetch
succeeds; on failure the cached response is returned when present; otherwise
API requests get the offline JSON 503 and other requests the generic offline
response. -/
def networkFirstStrategy (r : SwRequest) (network : Option SwResponse)
    (cached : Option SwResponse) : SwResponse :=
  match network with
  | some resp => resp
  | none =>
      match cached with
      | some c => c
      | none =>
          if isApiRequest r then offlineApiResponse else createOfflineResponse r

/-- C9: the worker's offline fallback applies only to GET requests — non-GET
requests are never intercepted — and an API GET whose network fetch fails gets
the cached response when one exists and otherwise a 503 JSON response carrying
error "offline". -/
theorem C9_offline_fallback_get_only (r : SwRequest) (cached : Option SwResponse) :
    (r.method ≠ "GET" → handleFetchEvent r = none) ∧
    (isApiRequest r = true →
      networkFirstStrategy r none cached =
        (match cached with
         | some c => c
         | none => offlineApiResponse) ∧
      offlineApiResponse.status = 503 ∧
      offlineApiResponse.contentType = "application/json" ∧
      strIncludes offlineApiResponse.body "\"error\":\"offline\"" = true) := by
  constructor
  · intro h
    rw [handleFetchEvent, if_pos (by rwa [bne_iff_ne])]
  · intro hapi
    refine ⟨?_, rfl, rfl, by decide⟩
    cases cached <;> simp [networkFirstStrategy, hapi]

/-- A POST request to the API, used to instantiate the non-GET part of C9. -/
def demoPostRequest : SwRequest :=
  { method := "POST", urlProtocol := "https:", urlHostname := "example.org",
    urlPath := "/api/v1/bucket-list/", mode := "cors", acceptHeader := "application/json" }

/-- A GET request to the API, used to instantiate the offline-fallback part. -/
def demoApiRequest : SwRequest :=
  { method := "GET", urlProtocol := "https:", urlHostname := "example.org",
    urlPath := "/api/v1/sites/", mode := "cors", acceptHeader := "application/json" }

/-- Witness for C9: the POST request is not intercepted, and the API GET with
failed network and empty cache yields the offline JSON 503. -/
theorem C9_offline_fallback_get_only_witness :
    handleFetchEvent demoPostRequest = none ∧
      networkFirstStrategy demoApiRequest none none = offlineApiResponse :=
  ⟨(C9_offline_fallback_get_only demoPostRequest none).1 (by decide),
    ((C9_offline_fallback_get_only demoApiRequest none).2 (by decide)).1⟩

/-! ## `displaySites` (map script, lines 463-500) -/

/-- A GeoJSON point feature of the sites layer, restricted to what
`createSiteMarker` reads. -/
structure SiteFeature where
  lng : ℚ
  lat : ℚ
  site_type : String
  national_monument : Bool
deriving DecidableEq, Repr

/-- A circle marker as `createSiteMarker` builds it. -/
structure SiteMarker where
  lat : ℚ
  lng : ℚ
  radius : Nat
  fillColor : String
  color : String
  weight : Nat
deriving DecidableEq, Repr

/-- `CONFIG.siteTypeColors[siteType] || CONFIG.defaultColor`
(map script, lines 90-104 and 115). -/
def siteTypeColor (t : String) : String :=
  if t == "castle" then "#8B4513"
  else if t == "monastery" then "#4B0082"
  else if t == "fort" then "#556B2F"
  else if t == "burial_site" then "#2F4F4F"
  else if t == "stone_monument" then "#708090"
  else if t == "holy_well" then "#4169E1"
  else if t == "battlefield" then "#8B0000"
  else if t == "historic_house" then "#CD853F"
  else if t == "archaeological_site" then "#D2691E"
  else if t == "church" then "#6A5ACD"
  else if t == "tower" then "#A0522D"
  else if t == "bridge" then "#696969"
  else if t == "other" then "#808080"
  else "#ff8c00"

/-- `createSiteMarker` (map script, lines 541-568).  Rational coordinates are
never NaN, so the invalid-coordinate `return null` branch cannot fire here. -/
def createSiteMarker (f : SiteFeature) : SiteMarker :=
  { lat := f.lat
    lng := f.lng
    radius := if f.national_monument then 10 else 7
    fillColor := siteTypeColor f.site_type
    color := if f.national_monument then "#ff8c00" else "#ffffff"
    weight := if f.national_monument then 3 else 2 }

/-- The marker-carrying layers of the map; `drawnItems` is held by other
features and is untouched by `displaySites`. -/
@[ext]
structure MapLayers where
  markersCluster : List SiteMarker
  sitesLayer : List SiteMarker
  drawnItems : List SiteMarker
deriving DecidableEq, Repr

/-- `displaySites` (map script, lines 463-500): clear both the cluster group
and the sites layer, add the features' markers to the sites layer
(`addData`), then add every layer so created to the cluster group. -/
def displaySites (features : List SiteFeature) (st : MapLayers) : MapLayers :=
  let cleared := { st with markersCluster := [], sitesLayer := [] }
  if features.length > 0 then
    let layers := features.map createSiteMarker
    let withSites := { cleared with sitesLayer := layers }
    if layers.length > 0 then { withSites with markersCluster := layers }
    else withSites
  else cleared

/-- C10: `displaySites` is idempotent on the displayed marker set — after any
call the markers present in the cluster group and the sites layer are exactly
those created from the most recent input, and markers never accumulate across
calls. -/
theorem C10_displaySites_no_accumulation (g1 g2 : List SiteFeature)
    (st : MapLayers) :
    (displaySites g2 st).markersCluster = g2.map createSiteMarker ∧
      (displaySites g2 st).sitesLayer = g2.map createSiteMarker ∧
      displaySites g2 (displaySites g1 st) = displaySites g2 st := by
  have hdrawn : ∀ (g : List SiteFeature) (t : MapLayers),
      (displaySites g t).drawnItems = t.drawnItems := by
    intro g t
    rcases g with _ | ⟨f, fs⟩ <;> simp [displaySites]
  have hfields : ∀ (g : List SiteFeature) (t : MapLayers),
      (displaySites g t).markersCluster = g.map createSiteMarker ∧
        (displaySites g t).sitesLayer = g.map createSiteMarker := by
    intro g t
    rcases g with _ | ⟨f, fs⟩ <;> simp [displaySites]
  refine ⟨(hfields g2 st).1, (hfields g2 st).2, ?_⟩
  have h1 := hfields g2 (displaySites g1 st)
  have h2 := hfields g2 st
  apply MapLayers.ext <;>
    simp [h1.1, h1.2, h2.1, h2.2, hdrawn]

end IrishGeo
